import Mathlib

/-!
Verification of the Sitka zoneamento API (src/index.js) against its
specification.  The embedding models:

* JavaScript string/value truthiness as used by the handlers (falsy = absent
  or empty string);
* the PostGIS expressions appearing in the SQL text of consultarZoneamento
  (ST_Point, ST_SetSRID, ST_Transform, ST_Contains), with the reprojection
  and the polygon shapes kept abstract as parameters, and the zoneamento
  table schema (geometry column declared with SRID 31983, per the README
  CREATE TABLE);
* the geocoding adapter geocodeEndereco and the HTTP route handlers for
  POST /zoneamento, POST /zoneamento-endereco and GET /webhook/zoneamento,
  with the provider and the database pool as explicit parameters and an
  event trace recording outbound calls, pooled-connection acquisition,
  query execution and release.

Coordinates are carried by an arbitrary type alpha (the JS numbers); no
arithmetic on them is performed by the code being modelled, only
construction, reprojection (abstract) and containment tests (abstract).
-/

namespace Sitka

/-! ### JavaScript truthiness helpers -/

/-- JS falsiness of a possibly-absent string value: `undefined`/`null` and
the empty string are falsy; every other string is truthy. -/
def strFalsy : Option String → Bool
  | none => true
  | some s => s.isEmpty

/-- JS `a || b` on possibly-absent string values (used for
`req.body.endereco || req.body.endereco_imovel`). -/
def jsOrOpt (a b : Option String) : Option String :=
  match a with
  | none => b
  | some s => if s.isEmpty then b else some s

/-- JS `v || fallback` where `v` is a string-or-null database value and the
fallback is a string literal. -/
def jsOrStr (v : Option String) (fallback : String) : String :=
  match v with
  | none => fallback
  | some s => if s.isEmpty then fallback else s

/-- JS `v || fallback` where `v` is a plain string. -/
def jsOrS (v fallback : String) : String :=
  if v.isEmpty then fallback else v

/-- JS template-literal interpolation of a string-or-null value:
`null` is printed as the text "null". -/
def jsInterp : Option String → String
  | none => "null"
  | some s => s

/-- JS `s.trim()`: strip leading and trailing whitespace (modelled over the
character list so that it evaluates by reduction; ASCII whitespace, which
covers the inputs these handlers see). -/
def jsTrim (s : String) : String :=
  ⟨((s.data.dropWhile Char.isWhitespace).reverse.dropWhile
      Char.isWhitespace).reverse⟩

/-! ### PostGIS model

The SQL in consultarZoneamento is

  SELECT z.zl_zona AS cod_zoneamento, z.zl_txt_zon AS texto_zoneamento
  FROM zoneamento z
  WHERE ST_Contains(z.geom,
          ST_Transform(ST_SetSRID(ST_Point($1, $2), 4326), 31983))
  LIMIT 1;

with parameter values `[lng, lat]`.  We model a point as coordinates plus a
spatial reference identifier, reprojection as an abstract family of
transforms indexed by source and target SRID, and each stored geometry as
its declared SRID together with an abstract containment predicate expressed
in its native frame. -/

structure Point (α : Type) where
  x : α
  y : α
  srid : Nat
deriving Repr

/-- ST_Point builds a bare point (PostGIS gives it SRID 0 / unknown). -/
def ST_Point {α : Type} (x y : α) : Point α := ⟨x, y, 0⟩

/-- ST_SetSRID tags a point with a reference-system identifier without
changing its coordinates. -/
def ST_SetSRID {α : Type} (p : Point α) (srid : Nat) : Point α :=
  ⟨p.x, p.y, srid⟩

/-- An abstract family of coordinate reprojections: `tx from to (x, y)` is
the image of `(x, y)` under the transform from reference system `from` to
reference system `to`. -/
structure Reproject (α : Type) where
  tx : Nat → Nat → α × α → α × α

/-- ST_Transform reprojects a point into the target reference system; the
result is tagged with the target SRID. -/
def ST_Transform {α : Type} (r : Reproject α) (p : Point α) (target : Nat) : Point α :=
  ⟨(r.tx p.srid target (p.x, p.y)).1, (r.tx p.srid target (p.x, p.y)).2, target⟩

/-- A stored geometry: the SRID it is declared in, plus its containment
predicate in its native coordinate frame. -/
structure Geometry (α : Type) where
  srid : Nat
  shape : α → α → Bool

/-- ST_Contains(geom, point): the point-in-polygon containment test. -/
def ST_Contains {α : Type} (g : Geometry α) (p : Point α) : Bool :=
  g.shape p.x p.y

/-- The SRID the zoneamento table's geometry column is declared with, from
the README schema: `geom GEOMETRY(MultiPolygon, 31983)`. -/
def zoneamentoSchemaSRID : Nat := 31983

/-- A row of the zoneamento table (the columns the query touches; both
VARCHAR columns are nullable). -/
structure ZRow (α : Type) where
  geom : Geometry α
  zl_zona : Option String
  zl_txt_zon : Option String

/-- The point the query tests containment against:
`ST_Transform(ST_SetSRID(ST_Point($1, $2), 4326), 31983)` with `$1 = lng`
and `$2 = lat` (the JS passes `values = [lng, lat]`). -/
def queryPoint {α : Type} (r : Reproject α) (lng lat : α) : Point α :=
  ST_Transform r (ST_SetSRID (ST_Point lng lat) 4326) 31983

/-- The result set of the SQL query: rows whose geometry contains the
reprojected point, projected to (cod_zoneamento, texto_zoneamento),
truncated by LIMIT 1. -/
def zoneamentoQuery {α : Type} (r : Reproject α) (table : List (ZRow α))
    (lng lat : α) : List (Option String × Option String) :=
  ((table.filter fun z => ST_Contains z.geom (queryPoint r lng lat)).map
    fun z => (z.zl_zona, z.zl_txt_zon)).take 1

/-! ### Effect traces -/

/-- Observable effects of one request: the geocoder adapter being entered,
its outbound HTTP call, and the spatial store's pooled-connection
acquisition, query execution and release. -/
inductive Ev
  | geocode
  | httpGet
  | poolConnect
  | storeQuery
  | clientRelease
deriving DecidableEq, Repr

/-- The spatial store as seen through the pool: the reprojection family the
database applies, the table contents, and whether the query raises an
infrastructure error (with its message). -/
structure Pool (α : Type) where
  reproject : Reproject α
  table : List (ZRow α)
  queryFails : Bool
  failMsg : String

/-- The value consultarZoneamento resolves with: `codigo` is string-or-null,
`texto` is always a string. -/
structure ZoneResult where
  codigo : Option String
  texto : String
deriving DecidableEq, Repr

/-- Lines 75-85 of src/index.js: zero rows become the not-found fallback;
otherwise the first row's code is kept and a null/empty description is
replaced by the fixed text. -/
def processRows (rows : List (Option String × Option String)) : ZoneResult :=
  match rows with
  | [] => ⟨none, "Zoneamento não encontrado para esse ponto."⟩
  | (cod, txt) :: _ => ⟨cod, jsOrStr txt "Zoneamento não identificado."⟩

/-- JS try/finally over an event trace: run the body, then run the finaliser
on the trace whether or not the body produced an error. -/
def tryFinally {β σ : Type} (body : σ → Except String β × σ) (fin : σ → σ)
    (s : σ) : Except String β × σ :=
  let r := body s
  (r.1, fin r.2)

/-- consultarZoneamento (src/index.js lines 54-89): acquire a pooled
connection, run the zoneamento query (which may raise an infrastructure
error), post-process the rows, and release the connection in a finally
block on every exit path. -/
def consultarZoneamento {α : Type} (p : Pool α) (lat lng : α) :
    Except String ZoneResult × List Ev :=
  tryFinally
    (fun evs =>
      if p.queryFails then
        (Except.error p.failMsg, evs ++ [Ev.storeQuery])
      else
        (Except.ok (processRows (zoneamentoQuery p.reproject p.table lng lat)),
          evs ++ [Ev.storeQuery]))
    (fun evs => evs ++ [Ev.clientRelease])
    [Ev.poolConnect]

/-! ### Geocoder adapter -/

/-- One candidate in the provider's result list. -/
structure GResult (α : Type) where
  formatted_address : String
  lat : α
  lng : α
deriving DecidableEq, Repr

/-- The provider's response body: a status string and an ordered candidate
list. -/
structure GoogleResponse (α : Type) where
  status : String
  results : List (GResult α)
deriving DecidableEq, Repr

/-- Outcome of the outbound HTTP call: either a parsed response or a
transport failure (the axios rejection, carrying its message). -/
inductive GeoOutcome (α : Type)
  | respond (resp : GoogleResponse α)
  | transportFail (msg : String)

/-- What geocodeEndereco resolves with on success. -/
structure GeocodeOk (α : Type) where
  enderecoFormatado : String
  lat : α
  lng : α
deriving DecidableEq, Repr

/-- The request URL built by geocodeEndereco (encodeURIComponent is kept
abstract as the identity on the address text; the handlers never inspect
the URL). -/
def geocodeUrl (endereco key : String) : String :=
  "https://maps.googleapis.com/maps/api/geocode/json?address="
    ++ endereco ++ "&key=" ++ key

/-- geocodeEndereco (src/index.js lines 23-51): fail fast when the
credential is falsy (unset or empty) before any network call; otherwise
issue the HTTP call; a non-OK status or an empty result list raises the
"not geocodable" error carrying the provider's status; otherwise the first
candidate's formatted address and coordinates are returned. -/
def geocodeEndereco {α : Type} (apiKey : Option String)
    (provider : String → GeoOutcome α) (endereco : String) :
    Except String (GeocodeOk α) × List Ev :=
  match apiKey with
  | none =>
      (Except.error
        "GOOGLE_API_KEY não configurada no .env. Não é possível geocodificar.",
        [])
  | some key =>
      if key.isEmpty then
        (Except.error
          "GOOGLE_API_KEY não configurada no .env. Não é possível geocodificar.",
          [])
      else
        match provider (geocodeUrl endereco key) with
        | GeoOutcome.transportFail msg => (Except.error msg, [Ev.httpGet])
        | GeoOutcome.respond resp =>
            -- if (resp.data.status !== 'OK' || !resp.data.results.length) throw
            if resp.status == "OK" then
              match resp.results with
              | [] =>
                  (Except.error
                    ("Não foi possível geocodificar o endereço. Status: "
                      ++ resp.status), [Ev.httpGet])
              | r :: _ =>
                  (Except.ok ⟨r.formatted_address, r.lat, r.lng⟩, [Ev.httpGet])
            else
              (Except.error
                ("Não foi possível geocodificar o endereço. Status: "
                  ++ resp.status), [Ev.httpGet])

/-! ### HTTP route handlers -/

/-- A JSON body value in a position the handler type-checks with
`typeof v !== 'number'`: either a number or anything else (string, null,
absent, object). -/
inductive JsonVal (α : Type)
  | num (x : α)
  | other
deriving DecidableEq, Repr

/-- The responses the modelled routes can produce. -/
inductive HttpResp (α : Type)
  | reject400 (error : String)
  | err500 (error details : String)
  | errWebhook (error : String)
  | okZone (lat lng : α) (cod_zoneamento : Option String) (txt_zoneamento : String)
  | okEndereco (end_fmt : String) (zon_cod zon_txt : String)
      (endereco_original endereco_formatado : String) (lat lng : α)
      (zoneamento zoneamento_texto mensagem_whatsapp : String)
  | okWebhook (endereco_formatado zoneamento zoneamento_texto : String)
deriving DecidableEq, Repr

/-- POST /zoneamento (src/index.js lines 121-149): reject when lat or lng
is not a number; otherwise consult the resolver and report its result, or a
500 with the resolver's error message in `details`. -/
def zoneamentoHandler {α : Type} (p : Pool α) (lat lng : JsonVal α) :
    HttpResp α × List Ev :=
  match lat, lng with
  | JsonVal.num la, JsonVal.num ln =>
      let r := consultarZoneamento p la ln
      (match r.1 with
        | Except.ok z => HttpResp.okZone la ln z.codigo z.texto
        | Except.error e => HttpResp.err500 "Erro ao consultar zoneamento." e,
        r.2)
  | _, _ =>
      (HttpResp.reject400
        "Parâmetros lat e lng são obrigatórios e devem ser numéricos.", [])

/-- POST /zoneamento-endereco (src/index.js lines 152-195): the effective
address is `body.endereco || body.endereco_imovel`; a falsy effective
address is rejected with 400; otherwise geocode then consult the resolver;
any error thrown by either step is caught and surfaced as a 500 whose
`details` is the error's message. -/
def zoneamentoEnderecoHandler {α : Type} (apiKey : Option String)
    (provider : String → GeoOutcome α) (p : Pool α)
    (body_endereco body_endereco_imovel : Option String) :
    HttpResp α × List Ev :=
  match jsOrOpt body_endereco body_endereco_imovel with
  | none => (HttpResp.reject400 "O campo \"endereco\" é obrigatório.", [])
  | some s =>
      if s.isEmpty then
        (HttpResp.reject400 "O campo \"endereco\" é obrigatório.", [])
      else
        match geocodeEndereco apiKey provider s with
        | (Except.error e, gevs) =>
            (HttpResp.err500 "Erro ao processar o endereço." e,
              Ev.geocode :: gevs)
        | (Except.ok g, gevs) =>
            let zr := consultarZoneamento p g.lat g.lng
            (match zr.1 with
              | Except.error e => HttpResp.err500 "Erro ao processar o endereço." e
              | Except.ok z =>
                  HttpResp.okEndereco g.enderecoFormatado
                    (jsOrStr z.codigo "Nao identificado")
                    (jsOrS z.texto "Zoneamento nao encontrado")
                    s g.enderecoFormatado g.lat g.lng
                    (jsOrStr z.codigo "Nao identificado")
                    (jsOrS z.texto "Zoneamento nao encontrado")
                    ("Endereço: " ++ g.enderecoFormatado ++ "\nZoneamento: "
                      ++ jsInterp z.codigo),
              Ev.geocode :: gevs ++ zr.2)

/-- GET /webhook/zoneamento (src/index.js lines 379-409): reject when the
`endereco` query parameter is falsy or trims to the empty string; otherwise
geocode then consult the resolver; a thrown error is surfaced as a 500
whose `error` field is the error's message (or a fixed fallback when that
message is empty). -/
def webhookZoneamentoHandler {α : Type} (apiKey : Option String)
    (provider : String → GeoOutcome α) (p : Pool α)
    (query_endereco : Option String) : HttpResp α × List Ev :=
  match query_endereco with
  | none => (HttpResp.reject400 "Parâmetro \"endereco\" eh obrigatorio", [])
  | some s =>
      if s.isEmpty || jsTrim s == "" then
        (HttpResp.reject400 "Parâmetro \"endereco\" eh obrigatorio", [])
      else
        match geocodeEndereco apiKey provider s with
        | (Except.error e, gevs) =>
            (HttpResp.errWebhook (jsOrS e "Erro ao processar endereco"),
              Ev.geocode :: gevs)
        | (Except.ok g, gevs) =>
            let zr := consultarZoneamento p g.lat g.lng
            (match zr.1 with
              | Except.error e =>
                  HttpResp.errWebhook (jsOrS e "Erro ao processar endereco")
              | Except.ok z =>
                  HttpResp.okWebhook g.enderecoFormatado
                    (jsOrStr z.codigo "Nao identificado")
                    (jsOrS z.texto "Zoneamento nao encontrado"),
              Ev.geocode :: gevs ++ zr.2)

/-! ### Concrete instances used by witnesses and counterexamples -/

/-- A concrete reprojection for tests: the identity on coordinates. -/
def gridTx : Reproject Int := ⟨fun _ _ xy => xy⟩

/-- A concrete polygon (an axis-aligned box in the projected frame),
declared in SRID 31983 as the schema requires. -/
def zeuGeom : Geometry Int :=
  ⟨31983, fun x y => (0 ≤ x && x ≤ 100) && (0 ≤ y && y ≤ 100)⟩

/-- A concrete zoneamento row carrying the regression-anchor code. -/
def zeuRow : ZRow Int :=
  ⟨zeuGeom, some "ZEU", some "Zona Eixo de Estruturação da Transformação Urbana"⟩

/-- A pool over an empty table. -/
def pool0 : Pool Int := ⟨gridTx, [], false, "db down"⟩

/-- A pool whose table holds the one concrete polygon. -/
def pool1 : Pool Int := ⟨gridTx, [zeuRow], false, "db down"⟩

/-- A provider that always answers with zero results. -/
def providerEmpty : String → GeoOutcome Int :=
  fun _ => GeoOutcome.respond ⟨"ZERO_RESULTS", []⟩

/-- A provider that geocodes every address to a fixed point inside the
concrete polygon, offering a second candidate that must be ignored. -/
def providerPaulista : String → GeoOutcome Int :=
  fun _ => GeoOutcome.respond
    ⟨"OK",
      [⟨"Av. Paulista, 1578 - Bela Vista, São Paulo - SP, 01310-200, Brasil", 40, 50⟩,
       ⟨"Rua Errada, 999", 9999, 9999⟩]⟩

/-- A row whose description column is NULL, for exercising the description
fallback. -/
def nullDescRow : ZRow Int := ⟨zeuGeom, some "ZC", none⟩

/-- A pool whose one polygon carries a NULL description. -/
def pool2 : Pool Int := ⟨gridTx, [nullDescRow], false, "db down"⟩

/-! ### Theorems -/

/-- Shared helper: the resolver's event trace is always acquire, query,
release, whether or not the query fails. -/
theorem consultarZoneamento_trace {α : Type} (p : Pool α) (lat lng : α) :
    (consultarZoneamento p lat lng).2
      = [Ev.poolConnect, Ev.storeQuery, Ev.clientRelease] := by
  cases h : p.queryFails <;> simp [consultarZoneamento, tryFinally, h]

/-- Shared helper: the geocoder's own event trace is empty (fail-fast on
the credential) or a single outbound HTTP call. -/
theorem geocodeEndereco_trace_cases {α : Type} (apiKey : Option String)
    (provider : String → GeoOutcome α) (endereco : String) :
    (geocodeEndereco apiKey provider endereco).2 = []
    ∨ (geocodeEndereco apiKey provider endereco).2 = [Ev.httpGet] := by
  unfold geocodeEndereco
  rcases apiKey with _ | key
  · exact Or.inl rfl
  · by_cases hk : key.isEmpty
    · simp [hk]
    · simp only [hk, Bool.false_eq_true, if_false]
      cases provider (geocodeUrl endereco key) with
      | transportFail m => exact Or.inr rfl
      | respond resp =>
          by_cases hst : resp.status == "OK"
          · simp only [hst, if_true]
            cases resp.results <;> exact Or.inr rfl
          · simp [hst]

/-- Claim C1: the resolver builds the query point from the WGS84 coordinate with
longitude as x and latitude as y, tags it SRID 4326, reprojects it to
SRID 31983 — the very SRID the zoneamento table's geometry column is
declared with — and the query is a point-in-polygon containment test
returning at most one (code, description) record. -/
theorem consultarZoneamento_reprojects_into_store_srid {α : Type} (p : Pool α)
    (lat lng : α) :
    queryPoint p.reproject lng lat
        = ST_Transform p.reproject (ST_SetSRID (ST_Point lng lat) 4326) 31983
    ∧ ST_SetSRID (ST_Point lng lat) 4326 = ⟨lng, lat, 4326⟩
    ∧ (queryPoint p.reproject lng lat).srid = zoneamentoSchemaSRID
    ∧ (∀ q ∈ zoneamentoQuery p.reproject p.table lng lat,
        ∃ z ∈ p.table,
          ST_Contains z.geom (queryPoint p.reproject lng lat) = true
          ∧ q = (z.zl_zona, z.zl_txt_zon))
    ∧ (zoneamentoQuery p.reproject p.table lng lat).length ≤ 1
    ∧ (p.queryFails = false →
        (consultarZoneamento p lat lng).1
          = Except.ok (processRows (zoneamentoQuery p.reproject p.table lng lat))) := by
  refine ⟨rfl, rfl, rfl, ?_, ?_, ?_⟩
  · intro q hq
    have hq' : q ∈ (p.table.filter
        fun z => ST_Contains z.geom (queryPoint p.reproject lng lat)).map
        fun z => (z.zl_zona, z.zl_txt_zon) :=
      List.mem_of_mem_take hq
    rcases List.mem_map.1 hq' with ⟨z, hz, rfl⟩
    rcases List.mem_filter.1 hz with ⟨hzt, hc⟩
    exact ⟨z, hzt, hc, rfl⟩
  · simp only [zoneamentoQuery, List.length_take]
    exact min_le_left _ _
  · intro h
    simp [consultarZoneamento, tryFinally, h]

/-- Witness for C1 at a concrete pool and coordinate. -/
theorem consultarZoneamento_reprojects_into_store_srid_witness :
    (queryPoint pool1.reproject 50 40).srid = zoneamentoSchemaSRID
    ∧ (consultarZoneamento pool1 40 50).1
        = Except.ok (processRows (zoneamentoQuery pool1.reproject pool1.table 50 40)) := by
  have h := consultarZoneamento_reprojects_into_store_srid pool1 40 50
  exact ⟨h.2.2.1, h.2.2.2.2.2 rfl⟩

/-- Claim C2: when no stored polygon contains the (reprojected) point and the
query itself does not fail, the resolver returns a normal success result
with a null code and the fixed not-found message — never an error. -/
theorem consultarZoneamento_zero_match_is_success {α : Type} (p : Pool α)
    (lat lng : α) (hq : p.queryFails = false)
    (hmiss : ∀ z ∈ p.table,
      ST_Contains z.geom (queryPoint p.reproject lng lat) = false) :
    consultarZoneamento p lat lng
      = (Except.ok ⟨none, "Zoneamento não encontrado para esse ponto."⟩,
          [Ev.poolConnect, Ev.storeQuery, Ev.clientRelease]) := by
  have hfil : p.table.filter
      (fun z => ST_Contains z.geom (queryPoint p.reproject lng lat)) = [] :=
    List.filter_eq_nil_iff.2 (fun z hz => by simp [hmiss z hz])
  simp [consultarZoneamento, tryFinally, hq, zoneamentoQuery, hfil, processRows]

/-- Witness for C2: a point outside the concrete polygon. -/
theorem consultarZoneamento_zero_match_is_success_witness :
    pool1.queryFails = false
    ∧ (∀ z ∈ pool1.table,
        ST_Contains z.geom (queryPoint pool1.reproject (-5) (-5)) = false)
    ∧ consultarZoneamento pool1 (-5) (-5)
        = (Except.ok ⟨none, "Zoneamento não encontrado para esse ponto."⟩,
            [Ev.poolConnect, Ev.storeQuery, Ev.clientRelease]) :=
  ⟨rfl, by decide,
    consultarZoneamento_zero_match_is_success pool1 (-5) (-5) rfl (by decide)⟩

/-- Claim C9: every resolver invocation acquires exactly one pooled connection,
issues exactly one query on it, and releases it last on every exit path,
the query-error path included. -/
theorem consultarZoneamento_pool_discipline {α : Type} (p : Pool α)
    (lat lng : α) :
    (consultarZoneamento p lat lng).2
        = [Ev.poolConnect, Ev.storeQuery, Ev.clientRelease]
    ∧ (consultarZoneamento p lat lng).2.count Ev.poolConnect = 1
    ∧ (consultarZoneamento p lat lng).2.count Ev.storeQuery = 1
    ∧ (consultarZoneamento p lat lng).2.count Ev.clientRelease = 1
    ∧ (consultarZoneamento p lat lng).2.getLast? = some Ev.clientRelease := by
  have ht := consultarZoneamento_trace p lat lng
  refine ⟨ht, ?_, ?_, ?_, ?_⟩ <;> rw [ht] <;> decide

/-- Claim C10: a matched row always yields its code, and a null or empty
description column is replaced by the fixed text, so a found zone never
carries a null or empty description; stated both for the row
post-processing and for the whole resolver. -/
theorem consultarZoneamento_found_description_fallback
    (cod txt : Option String) (rest : List (Option String × Option String)) :
    (strFalsy txt = true →
      processRows ((cod, txt) :: rest)
        = ⟨cod, "Zoneamento não identificado."⟩)
    ∧ (processRows ((cod, txt) :: rest)).codigo = cod
    ∧ (processRows ((cod, txt) :: rest)).texto ≠ ""
    ∧ (∀ {α : Type} (p : Pool α) (lat lng : α), p.queryFails = false →
        zoneamentoQuery p.reproject p.table lng lat = (cod, txt) :: rest →
        strFalsy txt = true →
        (consultarZoneamento p lat lng).1
          = Except.ok ⟨cod, "Zoneamento não identificado."⟩) := by
  have hfix : strFalsy txt = true →
      processRows ((cod, txt) :: rest)
        = ⟨cod, "Zoneamento não identificado."⟩ := by
    intro h
    cases txt with
    | none => simp [processRows, jsOrStr]
    | some s =>
        simp only [strFalsy] at h
        simp [processRows, jsOrStr, h]
  refine ⟨hfix, rfl, ?_, ?_⟩
  · cases txt with
    | none => simp [processRows, jsOrStr]
    | some s =>
        by_cases hs : s.isEmpty
        · simp [processRows, jsOrStr, hs]
        · simp only [processRows, jsOrStr, hs, Bool.false_eq_true, if_false]
          intro hcontr
          rw [hcontr] at hs
          exact hs rfl
  · intro α p lat lng hq hrows hfalsy
    calc (consultarZoneamento p lat lng).1
        = Except.ok (processRows (zoneamentoQuery p.reproject p.table lng lat)) := by
          simp [consultarZoneamento, tryFinally, hq]
      _ = Except.ok ⟨cod, "Zoneamento não identificado."⟩ := by
          rw [hrows, hfix hfalsy]

/-- Witness for C10: a pool whose matched polygon has a NULL description. -/
theorem consultarZoneamento_found_description_fallback_witness :
    (consultarZoneamento pool2 40 50).1
      = Except.ok ⟨some "ZC", "Zoneamento não identificado."⟩ :=
  (consultarZoneamento_found_description_fallback (some "ZC") none []).2.2.2
    pool2 40 50 rfl (by decide) rfl

/-- Claim C5: with the credential unset (or empty, equally falsy to the
`!GOOGLE_API_KEY` guard), the geocoder fails with the configuration error
and its trace is empty — no outbound request occurs. -/
theorem geocodeEndereco_missing_key_no_network {α : Type}
    (apiKey : Option String) (provider : String → GeoOutcome α)
    (endereco : String) (h : strFalsy apiKey = true) :
    geocodeEndereco apiKey provider endereco
      = (Except.error
          "GOOGLE_API_KEY não configurada no .env. Não é possível geocodificar.",
          [])
    ∧ Ev.httpGet ∉ (geocodeEndereco apiKey provider endereco).2 := by
  cases apiKey with
  | none => exact ⟨rfl, by simp [geocodeEndereco]⟩
  | some key =>
      simp only [strFalsy] at h
      refine ⟨?_, ?_⟩ <;> simp [geocodeEndereco, h]

/-- Witness for C5 with the credential absent. -/
theorem geocodeEndereco_missing_key_no_network_witness :
    strFalsy (none : Option String) = true
    ∧ geocodeEndereco (none : Option String) providerEmpty
        "Av. Paulista, 1578, São Paulo"
      = (Except.error
          "GOOGLE_API_KEY não configurada no .env. Não é possível geocodificar.",
          [])
    ∧ Ev.httpGet ∉ (geocodeEndereco (none : Option String) providerEmpty
        "Av. Paulista, 1578, São Paulo").2 := by
  have h := geocodeEndereco_missing_key_no_network none providerEmpty
    "Av. Paulista, 1578, São Paulo" rfl
  exact ⟨rfl, h.1, h.2⟩

/-- Claim C6: with the credential set, when the provider answers with a
non-OK status or an empty result list, the geocoder fails with the
"not geocodable" error whose message carries the provider's status
string. -/
theorem geocodeEndereco_bad_status_error {α : Type} (key : String)
    (provider : String → GeoOutcome α) (endereco : String)
    (resp : GoogleResponse α)
    (hk : key.isEmpty = false)
    (hp : provider (geocodeUrl endereco key) = GeoOutcome.respond resp)
    (hbad : resp.status ≠ "OK" ∨ resp.results = []) :
    geocodeEndereco (some key) provider endereco
      = (Except.error
          ("Não foi possível geocodificar o endereço. Status: " ++ resp.status),
          [Ev.httpGet]) := by
  rcases hbad with hb | hb
  · have hst : (resp.status == "OK") = false := by
      simp [hb]
    simp [geocodeEndereco, hk, hp, hst]
  · by_cases hst : resp.status == "OK"
    · simp [geocodeEndereco, hk, hp, hst, hb]
    · simp [geocodeEndereco, hk, hp, hst]

/-- Witness for C6: a provider answering ZERO_RESULTS with no candidates. -/
theorem geocodeEndereco_bad_status_error_witness :
    geocodeEndereco (some "test-key") providerEmpty "Rua Inexistente, 1"
      = (Except.error
          ("Não foi possível geocodificar o endereço. Status: " ++ "ZERO_RESULTS"),
          [Ev.httpGet]) :=
  geocodeEndereco_bad_status_error "test-key" providerEmpty "Rua Inexistente, 1"
    ⟨"ZERO_RESULTS", []⟩ (by decide) rfl (Or.inr rfl)

/-- Claim C7: on a successful geocode (status OK, at least one candidate)
the geocoder returns exactly the first candidate's formatted address and
coordinates, unmodified; the right-hand side depends only on the head of
the result list, so later candidates never influence the output. -/
theorem geocodeEndereco_takes_first_result {α : Type} (key : String)
    (provider : String → GeoOutcome α) (endereco : String)
    (resp : GoogleResponse α) (r : GResult α) (rest : List (GResult α))
    (hk : key.isEmpty = false)
    (hp : provider (geocodeUrl endereco key) = GeoOutcome.respond resp)
    (hok : resp.status = "OK") (hres : resp.results = r :: rest) :
    geocodeEndereco (some key) provider endereco
      = (Except.ok ⟨r.formatted_address, r.lat, r.lng⟩, [Ev.httpGet]) := by
  simp [geocodeEndereco, hk, hp, hok, hres]

/-- Witness for C7: a provider offering two candidates; only the first is
consumed. -/
theorem geocodeEndereco_takes_first_result_witness :
    geocodeEndereco (some "test-key") providerPaulista
        "Av. Paulista, 1578, São Paulo"
      = (Except.ok
          ⟨"Av. Paulista, 1578 - Bela Vista, São Paulo - SP, 01310-200, Brasil",
            40, 50⟩,
          [Ev.httpGet]) :=
  geocodeEndereco_takes_first_result "test-key" providerPaulista
    "Av. Paulista, 1578, São Paulo"
    ⟨"OK",
      [⟨"Av. Paulista, 1578 - Bela Vista, São Paulo - SP, 01310-200, Brasil", 40, 50⟩,
       ⟨"Rua Errada, 999", 9999, 9999⟩]⟩
    ⟨"Av. Paulista, 1578 - Bela Vista, São Paulo - SP, 01310-200, Brasil", 40, 50⟩
    [⟨"Rua Errada, 999", 9999, 9999⟩]
    (by decide) rfl rfl rfl

/-- Claim C3: on the address-driven route, whenever the geocoder fails
(for any of its failure modes), the spatial store is never touched — no
connection is acquired and no query runs — and the response carries the
geocoding error message unchanged in its details; when the geocoder
succeeds, the resolver's trace follows the geocoder's. -/
theorem zoneamentoEndereco_geocode_failure_skips_store {α : Type}
    (apiKey : Option String) (provider : String → GeoOutcome α) (p : Pool α)
    (be bei : Option String) :
    (∀ s e gevs, jsOrOpt be bei = some s → s.isEmpty = false →
        geocodeEndereco apiKey provider s = (Except.error e, gevs) →
        zoneamentoEnderecoHandler apiKey provider p be bei
          = (HttpResp.err500 "Erro ao processar o endereço." e,
              Ev.geocode :: gevs)
        ∧ Ev.storeQuery ∉ (zoneamentoEnderecoHandler apiKey provider p be bei).2
        ∧ Ev.poolConnect ∉ (zoneamentoEnderecoHandler apiKey provider p be bei).2)
    ∧ (∀ s g gevs, jsOrOpt be bei = some s → s.isEmpty = false →
        geocodeEndereco apiKey provider s = (Except.ok g, gevs) →
        (zoneamentoEnderecoHandler apiKey provider p be bei).2
          = Ev.geocode :: gevs ++ (consultarZoneamento p g.lat g.lng).2) := by
  constructor
  · intro s e gevs hjs hne hgeo
    have hH : zoneamentoEnderecoHandler apiKey provider p be bei
        = (HttpResp.err500 "Erro ao processar o endereço." e,
            Ev.geocode :: gevs) := by
      simp [zoneamentoEnderecoHandler, hjs, hne, hgeo]
    have hg2 : gevs = (geocodeEndereco apiKey provider s).2 := by rw [hgeo]
    have hT : (zoneamentoEnderecoHandler apiKey provider p be bei).2
        = Ev.geocode :: gevs := by rw [hH]
    refine ⟨hH, ?_, ?_⟩ <;> rw [hT] <;>
      rcases geocodeEndereco_trace_cases apiKey provider s with h | h <;>
        rw [hg2, h] <;> decide
  · intro s g gevs hjs hne hgeo
    simp [zoneamentoEnderecoHandler, hjs, hne, hgeo]

/-- Witness for C3: with the credential unset the geocoder fails and the
handler's trace shows no store activity. -/
theorem zoneamentoEndereco_geocode_failure_skips_store_witness :
    zoneamentoEnderecoHandler (none : Option String) providerEmpty pool1
        (some "Av. Paulista, 1578, São Paulo") none
      = (HttpResp.err500 "Erro ao processar o endereço."
          "GOOGLE_API_KEY não configurada no .env. Não é possível geocodificar.",
          [Ev.geocode])
    ∧ Ev.storeQuery ∉ (zoneamentoEnderecoHandler (none : Option String)
        providerEmpty pool1 (some "Av. Paulista, 1578, São Paulo") none).2 := by
  have h := (zoneamentoEndereco_geocode_failure_skips_store none providerEmpty
      pool1 (some "Av. Paulista, 1578, São Paulo") none).1
      "Av. Paulista, 1578, São Paulo"
      "GOOGLE_API_KEY não configurada no .env. Não é possível geocodificar."
      [] (by decide) (by decide) rfl
  exact ⟨h.1, h.2.1⟩

/-- Counterexample to C4 as stated: latitude 95 is outside the WGS84 range,
yet POST /zoneamento does not reject the request — the resolver is invoked
(its full store trace appears) and a normal success response is returned. -/
theorem zoneamento_out_of_range_latitude_reaches_resolver :
    (90 : Int) < 95
    ∧ zoneamentoHandler pool0 (JsonVal.num (95 : Int)) (JsonVal.num 0)
        = (HttpResp.okZone 95 0 none "Zoneamento não encontrado para esse ponto.",
            [Ev.poolConnect, Ev.storeQuery, Ev.clientRelease])
    ∧ Ev.storeQuery
        ∈ (zoneamentoHandler pool0 (JsonVal.num (95 : Int)) (JsonVal.num 0)).2 := by
  decide

/-- Claim C4 as amended: the route rejects, before the resolver is invoked,
exactly the requests whose lat or lng is not numeric; every numeric pair,
including range-invalid values such as latitude 95, is passed to the
resolver unvalidated. -/
theorem zoneamentoHandler_numeric_guard_only {α : Type} (p : Pool α)
    (lat lng : JsonVal α) :
    (∀ la ln, lat = JsonVal.num la → lng = JsonVal.num ln →
        Ev.storeQuery ∈ (zoneamentoHandler p lat lng).2)
    ∧ ((lat = JsonVal.other ∨ lng = JsonVal.other) →
        zoneamentoHandler p lat lng
          = (HttpResp.reject400
              "Parâmetros lat e lng são obrigatórios e devem ser numéricos.",
              [])) := by
  constructor
  · intro la ln hla hln
    subst hla; subst hln
    have ht : (zoneamentoHandler p (JsonVal.num la) (JsonVal.num ln)).2
        = (consultarZoneamento p la ln).2 := rfl
    rw [ht, consultarZoneamento_trace]
    decide
  · intro h
    rcases h with h | h
    · subst h; cases lng <;> rfl
    · subst h; cases lat <;> rfl

/-- Witness for the amended C4. -/
theorem zoneamentoHandler_numeric_guard_only_witness :
    Ev.storeQuery
      ∈ (zoneamentoHandler pool1 (JsonVal.num (40 : Int)) (JsonVal.num 50)).2
    ∧ zoneamentoHandler pool1 JsonVal.other (JsonVal.num (50 : Int))
        = (HttpResp.reject400
            "Parâmetros lat e lng são obrigatórios e devem ser numéricos.",
            []) :=
  ⟨((zoneamentoHandler_numeric_guard_only pool1 (JsonVal.num 40) (JsonVal.num 50)).1
      40 50 rfl rfl),
    (zoneamentoHandler_numeric_guard_only pool1 JsonVal.other (JsonVal.num 50)).2
      (Or.inl rfl)⟩

/-- Counterexample to C8 as stated: at POST /zoneamento-endereco a
whitespace-only address (" ", empty after trimming) is not rejected — the
geocoder adapter is entered and its outbound call is issued with that
address. -/
theorem zoneamentoEndereco_whitespace_reaches_geocoder :
    jsTrim " " = ""
    ∧ zoneamentoEnderecoHandler (some "test-key") providerEmpty pool0
        (some " ") none
      = (HttpResp.err500 "Erro ao processar o endereço."
          "Não foi possível geocodificar o endereço. Status: ZERO_RESULTS",
          [Ev.geocode, Ev.httpGet])
    ∧ Ev.geocode ∈ (zoneamentoEnderecoHandler (some "test-key") providerEmpty
        pool0 (some " ") none).2 := by
  decide

/-- Claim C8 as amended: the webhook route rejects, before the geocoder,
every address that is empty after trimming (so the geocoder only ever runs
there on addresses with nonempty trim); POST /zoneamento-endereco instead
rejects only a falsy effective address (missing or the empty string) and
invokes the geocoder for every other address, whitespace-only ones
included. -/
theorem address_guards_by_route {α : Type} (apiKey : Option String)
    (provider : String → GeoOutcome α) (p : Pool α) :
    (∀ s : String, jsTrim s = "" →
        webhookZoneamentoHandler apiKey provider p (some s)
          = (HttpResp.reject400 "Parâmetro \"endereco\" eh obrigatorio", []))
    ∧ webhookZoneamentoHandler apiKey provider p none
        = (HttpResp.reject400 "Parâmetro \"endereco\" eh obrigatorio", [])
    ∧ (∀ s : String,
        Ev.geocode ∈ (webhookZoneamentoHandler apiKey provider p (some s)).2 →
        jsTrim s ≠ "")
    ∧ (∀ be bei, strFalsy (jsOrOpt be bei) = true →
        zoneamentoEnderecoHandler apiKey provider p be bei
          = (HttpResp.reject400 "O campo \"endereco\" é obrigatório.", []))
    ∧ (∀ be bei s, jsOrOpt be bei = some s → s.isEmpty = false →
        Ev.geocode ∈ (zoneamentoEnderecoHandler apiKey provider p be bei).2) := by
  have hWeb : ∀ s : String, jsTrim s = "" →
      webhookZoneamentoHandler apiKey provider p (some s)
        = (HttpResp.reject400 "Parâmetro \"endereco\" eh obrigatorio", []) := by
    intro s h
    simp [webhookZoneamentoHandler, h]
  refine ⟨hWeb, rfl, ?_, ?_, ?_⟩
  · intro s hmem htrim
    rw [hWeb s htrim] at hmem
    simp at hmem
  · intro be bei h
    cases hjs : jsOrOpt be bei with
    | none => simp [zoneamentoEnderecoHandler, hjs]
    | some s =>
        rw [hjs] at h
        simp only [strFalsy] at h
        simp [zoneamentoEnderecoHandler, hjs, h]
  · intro be bei s hjs hne
    rcases hgeo : geocodeEndereco apiKey provider s with ⟨r, gevs⟩
    cases r <;> simp [zoneamentoEnderecoHandler, hjs, hne, hgeo]

/-- Witness for the amended C8. -/
theorem address_guards_by_route_witness :
    webhookZoneamentoHandler (some "test-key") providerEmpty pool0 (some " ")
      = (HttpResp.reject400 "Parâmetro \"endereco\" eh obrigatorio", [])
    ∧ zoneamentoEnderecoHandler (some "test-key") providerEmpty pool0
        (some "") none
      = (HttpResp.reject400 "O campo \"endereco\" é obrigatório.", [])
    ∧ Ev.geocode ∈ (zoneamentoEnderecoHandler (some "test-key") providerEmpty
        pool0 (some "Av. Paulista, 1578, São Paulo") none).2 := by
  have h := address_guards_by_route (α := Int) (some "test-key") providerEmpty pool0
  exact ⟨h.1 " " (by decide), h.2.2.2.1 (some "") none (by decide),
    h.2.2.2.2 (some "Av. Paulista, 1578, São Paulo") none
      "Av. Paulista, 1578, São Paulo" (by decide) (by decide)⟩

end Sitka
